import Mathlib

/-!
Shallow embedding of the client-side JWT refresh logic of
`jwt-api-express-client` (`src/lib/auth.ts` and the logout server action),
together with proofs of the behavioural claims about it.

The Next.js cookie store is modelled as an explicit record holding the two
named cookies `access_token` and `refresh_token` (value plus the attributes
passed to `cookieStore.set`).  Network calls (`fetch`) are modelled as oracle
functions supplied in an environment record: a call either yields a
`Response` (status, `Set-Cookie` headers, body) or faults with an error
message (`Except String Response`, mirroring a rejected promise).  The
executor `fetchWithAuth` additionally returns the final store and the ordered
list of network events it issued, so that claims about "exactly one renewal
call and exactly one retry, in that order" can be stated.
-/

/-- Attributes and value of one stored cookie, as passed to
`cookieStore.set(name, value, options)` in `src/lib/auth.ts`. -/
structure CookieData where
  value : String
  httpOnly : Bool
  secure : Bool
  sameSite : String
  path : String
  maxAge : Nat
deriving Repr, DecidableEq

/-- The Next.js cookie store restricted to the two cookies this code ever
touches: `access_token` and `refresh_token`.  `none` means the cookie is
absent. -/
structure CookieStore where
  access : Option CookieData
  refresh : Option CookieData
deriving Repr, DecidableEq

/-- JavaScript truthiness of a `string | undefined` value: `undefined` and
the empty string are falsy.  Used wherever the source guards with
`if (token)` / `if (!token)`. -/
def truthy : Option String → Option String
  | some s => if s = "" then none else some s
  | none => none

/-- The capture of the JavaScript regular expression `pat([^;]+)` applied to
a string, as `str.match` performs it: scan left to right for an occurrence
of the literal `pat` followed by at least one character other than a
semicolon, and return the maximal such run after the first occurrence where
it is nonempty. -/
def regexCapture (pat : List Char) : List Char → Option (List Char)
  | [] => none
  | c :: rest =>
    if pat.isPrefixOf (c :: rest) then
      let cap := ((c :: rest).drop pat.length).takeWhile (fun ch => ch ≠ ';')
      if cap = [] then regexCapture pat rest else some cap
    else regexCapture pat rest

/-- String-level wrapper of `regexCapture`: the value captured by
`s.match(/pat([^;]+)/)`, or `none` when the pattern does not match. -/
def matchCookieValue (pat s : String) : Option String :=
  (regexCapture pat.toList s.toList).map fun l => String.mk l

/-- The cookie record written for the access token: the options literal of
`cookieStore.set('access_token', ...)` (maxAge `15 * 60`). -/
def accessCookieData (prod : Bool) (v : String) : CookieData :=
  { value := v, httpOnly := true, secure := prod, sameSite := "lax",
    path := "/", maxAge := 15 * 60 }

/-- The cookie record written for the refresh token: the options literal of
`cookieStore.set('refresh_token', ...)` (maxAge `10080 * 60`). -/
def refreshCookieData (prod : Bool) (v : String) : CookieData :=
  { value := v, httpOnly := true, secure := prod, sameSite := "lax",
    path := "/", maxAge := 10080 * 60 }

/-- `extractAndSetCookies(setCookieHeaders)`: iterate over every header in
the array; in each, try the `access_token=([^;]+)` match and store the
capture as the access cookie, then the `refresh_token=([^;]+)` match and
store the capture as the refresh cookie.  `prod` is
`process.env.NODE_ENV === 'production'`, which decides the `secure`
attribute. -/
def extractAndSetCookies (prod : Bool) (setCookieHeaders : List String)
    (st : CookieStore) : CookieStore :=
  setCookieHeaders.foldl
    (fun store h =>
      let store1 :=
        match matchCookieValue "access_token=" h with
        | some v => { store with access := some (accessCookieData prod v) }
        | none => store
      match matchCookieValue "refresh_token=" h with
      | some v => { store1 with refresh := some (refreshCookieData prod v) }
      | none => store1)
    st

/-- `getAuthToken()`: the value of the `access_token` cookie, `undefined`
when absent. -/
def getAuthToken (st : CookieStore) : Option String :=
  st.access.map fun c => c.value

/-- `getRefreshToken()`: the value of the `refresh_token` cookie,
`undefined` when absent. -/
def getRefreshToken (st : CookieStore) : Option String :=
  st.refresh.map fun c => c.value

/-- The headers object built by the source: a `Content-Type` entry that is
always present and an optional `Cookie` entry.  `none` on a field models the
key being absent from the record. -/
structure HeaderMap where
  contentType : Option String := none
  cookie : Option String := none
deriving Repr, DecidableEq

/-- `array.join('; ')` on a list of strings. -/
def joinSemicolon : List String → String
  | [] => ""
  | [x] => x
  | x :: y :: xs => x ++ "; " ++ joinSemicolon (y :: xs)

/-- `getAuthHeaders()`: always a `Content-Type: application/json` entry; a
single `Cookie` entry joining whichever of the two tokens are (truthily)
present, access first, and no `Cookie` entry when both are absent. -/
def getAuthHeaders (st : CookieStore) : HeaderMap :=
  let accessToken := truthy (getAuthToken st)
  let refreshToken := truthy (getRefreshToken st)
  let cookieHeader :=
    (match accessToken with
     | some t => ["access_token=" ++ t]
     | none => []) ++
    (match refreshToken with
     | some t => ["refresh_token=" ++ t]
     | none => [])
  { contentType := some "application/json",
    cookie :=
      if cookieHeader.length > 0 then some (joinSemicolon cookieHeader)
      else none }

/-- `clearAuthCookies()`: delete both cookies. -/
def clearAuthCookies (st : CookieStore) : CookieStore :=
  { st with access := none, refresh := none }

/-- A settled HTTP response: status code, the array returned by
`headers.getSetCookie()`, and a body tag distinguishing responses. -/
structure Response where
  status : Nat
  setCookies : List String
  body : String
deriving Repr, DecidableEq

/-- The `ok` getter of a fetch `Response`: status in the range 200–299. -/
def responseOk (r : Response) : Bool :=
  200 ≤ r.status && r.status ≤ 299

/-- Merge of two header objects by JavaScript spread
`{...base, ...extra}`: a key present in `extra` overrides `base`. -/
def mergeHeaders (base extra : HeaderMap) : HeaderMap :=
  { contentType :=
      match extra.contentType with
      | some v => some v
      | none => base.contentType,
    cookie :=
      match extra.cookie with
      | some v => some v
      | none => base.cookie }

/-- Options of `fetchWithAuth`: the `skipRefresh` flag plus any
caller-supplied headers (spread over the built ones, so they take
precedence). -/
structure FetchWithAuthOptions where
  skipRefresh : Bool := false
  headers : HeaderMap := {}
deriving Repr, DecidableEq

/-- The network environment a `fetchWithAuth` call runs against.
`request n h` is the outcome of the n-th `fetch` of the original url
(attempt 0 is the initial call, attempt 1 the retry) when issued with
headers `h`; `refreshCall t` is the outcome of the `POST /api/auth/refresh`
fetch issued with cookie `refresh_token=t`.  `Except.error e` models a
rejected fetch promise with message `e`. -/
structure Env where
  prod : Bool
  request : Nat → HeaderMap → Except String Response
  refreshCall : String → Except String Response

/-- One observable network call issued by `fetchWithAuth`, in order. -/
inductive Event where
  | origRequest (headers : HeaderMap)
  | refreshRequest (refreshToken : String)
deriving Repr, DecidableEq

instance {ε α : Type} [DecidableEq ε] [DecidableEq α] :
    DecidableEq (Except ε α) := fun a b =>
  match a, b with
  | Except.error e1, Except.error e2 =>
    if h : e1 = e2 then isTrue (by rw [h])
    else isFalse (by intro hc; cases hc; exact h rfl)
  | Except.ok x, Except.ok y =>
    if h : x = y then isTrue (by rw [h])
    else isFalse (by intro hc; cases hc; exact h rfl)
  | Except.error _, Except.ok _ => isFalse (by intro hc; cases hc)
  | Except.ok _, Except.error _ => isFalse (by intro hc; cases hc)

/-- The outcome of one `fetchWithAuth` invocation: the returned response or
thrown error, the cookie store afterwards, and the ordered list of network
calls issued. -/
structure FetchResult where
  outcome : Except String Response
  store : CookieStore
  events : List Event
deriving Repr, DecidableEq

/-- The store after persisting a successful renewal response `rr`: the
source guards `extractAndSetCookies` behind
`if (setCookieHeaders && setCookieHeaders.length > 0)`. -/
def persistRenewal (prod : Bool) (rr : Response) (st : CookieStore) :
    CookieStore :=
  if rr.setCookies.length > 0 then extractAndSetCookies prod rr.setCookies st
  else st

/-- `fetchWithAuth(url, options)` translated line by line.  The initial
fetch uses `getAuthHeaders()` merged under the caller headers.  On a 401
with refresh enabled: no (truthy) refresh token throws
`Unauthorized: No refresh token available` outside the try block (so the
store is untouched); otherwise the refresh endpoint is called.  A rejected
refresh response clears the cookies and throws the session-expired error
(the catch block clears them again); a fault anywhere inside the try block
is caught, the cookies are cleared, and the original error is rethrown.  On
a successful refresh the `Set-Cookie` headers (if any) are persisted, the
headers are rebuilt from the updated store, and the original request is
retried exactly once, its response returned as-is. -/
def fetchWithAuth (env : Env) (options : FetchWithAuthOptions)
    (st : CookieStore) : FetchResult :=
  let mergedHeaders := mergeHeaders (getAuthHeaders st) options.headers
  match env.request 0 mergedHeaders with
  | Except.error e =>
    { outcome := Except.error e, store := st,
      events := [Event.origRequest mergedHeaders] }
  | Except.ok response =>
    if response.status = 401 ∧ options.skipRefresh = false then
      match truthy (getRefreshToken st) with
      | none =>
        { outcome := Except.error "Unauthorized: No refresh token available",
          store := st, events := [Event.origRequest mergedHeaders] }
      | some refreshToken =>
        match env.refreshCall refreshToken with
        | Except.error e =>
          { outcome := Except.error e, store := clearAuthCookies st,
            events := [Event.origRequest mergedHeaders,
                       Event.refreshRequest refreshToken] }
        | Except.ok refreshResponse =>
          if responseOk refreshResponse = false then
            { outcome := Except.error "Session expired. Please login again.",
              store := clearAuthCookies (clearAuthCookies st),
              events := [Event.origRequest mergedHeaders,
                         Event.refreshRequest refreshToken] }
          else
            let st1 := persistRenewal env.prod refreshResponse st
            let newMerged := mergeHeaders (getAuthHeaders st1) options.headers
            match env.request 1 newMerged with
            | Except.error e =>
              { outcome := Except.error e, store := clearAuthCookies st1,
                events := [Event.origRequest mergedHeaders,
                           Event.refreshRequest refreshToken,
                           Event.origRequest newMerged] }
            | Except.ok retryResponse =>
              { outcome := Except.ok retryResponse, store := st1,
                events := [Event.origRequest mergedHeaders,
                           Event.refreshRequest refreshToken,
                           Event.origRequest newMerged] }
    else
      { outcome := Except.ok response, store := st,
        events := [Event.origRequest mergedHeaders] }

/-- The network environment of `logout`: the outcome of the
`POST /api/auth/logout` fetch as a function of the refresh token it
carries. -/
structure LogoutEnv where
  logoutCall : String → Except String Response

/-- One observable action of `logout`: the remote call, or the
`console.error` line of its catch block. -/
inductive LogoutEvent where
  | logoutRequest (refreshToken : String)
  | errorLogged (msg : String)
deriving Repr, DecidableEq

/-- The logout server action: if a (truthy) refresh token is stored, the
remote logout endpoint is called with it and any fault is caught and
logged; in every case `clearAuthCookies()` runs afterwards.  The function
is total: no error ever propagates. -/
def logout (env : LogoutEnv) (st : CookieStore) :
    CookieStore × List LogoutEvent :=
  match truthy (getRefreshToken st) with
  | some refreshToken =>
    let ev :=
      match env.logoutCall refreshToken with
      | Except.ok _ => [LogoutEvent.logoutRequest refreshToken]
      | Except.error e =>
        [LogoutEvent.logoutRequest refreshToken,
         LogoutEvent.errorLogged ("Logout request failed: " ++ e)]
    (clearAuthCookies st, ev)
  | none => (clearAuthCookies st, [])

/-- Whether a renewal round trip failed: the fetch faulted, or it settled
with a non-success status. -/
def renewalFailed : Except String Response → Bool
  | Except.ok rr => !responseOk rr
  | Except.error _ => true

/-- The error message `fetchWithAuth` surfaces for a failed renewal: the
fixed session-expired message when the renewal settled with a non-success
status, the fault's own message when the renewal fetch rejected. -/
def renewalErrorMessage : Except String Response → String
  | Except.ok _ => "Session expired. Please login again."
  | Except.error e => e

/-- Default options record: `fetchWithAuth(url)` with no options object. -/
def optsDefault : FetchWithAuthOptions := {}

/-- A store holding access token `AAA` and refresh token `BBB`, as written
by `extractAndSetCookies` outside production. -/
def stBoth : CookieStore :=
  { access := some (accessCookieData false "AAA"),
    refresh := some (refreshCookieData false "BBB") }

/-- A store holding only the access token `AAA`. -/
def stAccessOnly : CookieStore :=
  { access := some (accessCookieData false "AAA"), refresh := none }

/-- A settled 401 response with no `Set-Cookie` headers. -/
def respUnauthorized : Response :=
  { status := 401, setCookies := [], body := "unauthorized" }

/-- A settled 200 response representing the protected resource. -/
def respStats : Response :=
  { status := 200, setCookies := [], body := "stats" }

/-- A settled 500 response. -/
def respServerError : Response :=
  { status := 500, setCookies := [], body := "boom" }

/-- A successful renewal response carrying the two rotated directives. -/
def respRenewed : Response :=
  { status := 200,
    setCookies :=
      ["access_token=CCC; Max-Age=900; Path=/; HttpOnly",
       "refresh_token=DDD; Max-Age=604800; Path=/; HttpOnly"],
    body := "" }

/-- A successful renewal response carrying no directives at all. -/
def respRenewedEmpty : Response :=
  { status := 200, setCookies := [], body := "" }

/-- Environment for the happy renewal path: the protected endpoint answers
401 on the first attempt and 200 on the retry; the refresh endpoint
settles successfully with the rotated pair. -/
def envHappy : Env :=
  { prod := false,
    request := fun n _ =>
      if n = 0 then Except.ok respUnauthorized else Except.ok respStats,
    refreshCall := fun _ => Except.ok respRenewed }

/-- Environment where the refresh endpoint rejects with a 401. -/
def envRenewDenied : Env :=
  { prod := false,
    request := fun _ _ => Except.ok respUnauthorized,
    refreshCall := fun _ =>
      Except.ok { status := 401, setCookies := [], body := "" } }

/-- Environment where the refresh fetch itself faults. -/
def envRenewFault : Env :=
  { prod := false,
    request := fun _ _ => Except.ok respUnauthorized,
    refreshCall := fun _ => Except.error "fetch failed: network down" }

/-- Environment where every request answers 401 and the refresh endpoint is
never reachable (it would fault if called). -/
def env401 : Env :=
  { prod := false,
    request := fun _ _ => Except.ok respUnauthorized,
    refreshCall := fun _ => Except.error "unreachable" }

/-- Environment where the protected endpoint answers 500 on every attempt. -/
def env500 : Env :=
  { prod := false,
    request := fun _ _ => Except.ok respServerError,
    refreshCall := fun _ => Except.error "unreachable" }

/-- Environment for the renewal-without-directives path: 401 first, 200 on
retry, refresh settles successfully but with zero `Set-Cookie` headers. -/
def envEmptyRenewal : Env :=
  { prod := false,
    request := fun n _ =>
      if n = 0 then Except.ok respUnauthorized else Except.ok respStats,
    refreshCall := fun _ => Except.ok respRenewedEmpty }

/-- An empty store. -/
def stEmpty : CookieStore := { access := none, refresh := none }

/-- Options with `skipRefresh: true` and no caller headers. -/
def optsSkip : FetchWithAuthOptions := { skipRefresh := true }

/-- Path lemma: when the initial request settles and the 401-with-renewal
condition does not hold, the response is returned verbatim with no further
call and an unchanged store. -/
theorem fetchWithAuth_eq_passthrough (env : Env)
    (options : FetchWithAuthOptions) (st : CookieStore) (resp : Response)
    (hreq : env.request 0 (mergeHeaders (getAuthHeaders st) options.headers) =
      Except.ok resp)
    (hc : ¬(resp.status = 401 ∧ options.skipRefresh = false)) :
    fetchWithAuth env options st =
      { outcome := Except.ok resp, store := st,
        events :=
          [Event.origRequest
            (mergeHeaders (getAuthHeaders st) options.headers)] } := by
  simp only [fetchWithAuth, hreq, if_neg hc]

/-- Path lemma: a 401 with renewal enabled but no (truthy) refresh token in
the store throws the no-refresh-token error before the try block, leaving
the store untouched and issuing no further call. -/
theorem fetchWithAuth_eq_noRefreshToken (env : Env)
    (options : FetchWithAuthOptions) (st : CookieStore) (resp : Response)
    (hreq : env.request 0 (mergeHeaders (getAuthHeaders st) options.headers) =
      Except.ok resp)
    (h401 : resp.status = 401) (hskip : options.skipRefresh = false)
    (hno : truthy (getRefreshToken st) = none) :
    fetchWithAuth env options st =
      { outcome := Except.error "Unauthorized: No refresh token available",
        store := st,
        events :=
          [Event.origRequest
            (mergeHeaders (getAuthHeaders st) options.headers)] } := by
  simp only [fetchWithAuth, hreq, if_pos (And.intro h401 hskip), hno]

/-- Path lemma: when the refresh fetch faults, the catch block clears the
cookies and rethrows the fault; no retry is issued. -/
theorem fetchWithAuth_eq_renewalFault (env : Env)
    (options : FetchWithAuthOptions) (st : CookieStore) (resp : Response)
    (rt e : String)
    (hreq : env.request 0 (mergeHeaders (getAuthHeaders st) options.headers) =
      Except.ok resp)
    (h401 : resp.status = 401) (hskip : options.skipRefresh = false)
    (hrt : truthy (getRefreshToken st) = some rt)
    (hc : env.refreshCall rt = Except.error e) :
    fetchWithAuth env options st =
      { outcome := Except.error e, store := clearAuthCookies st,
        events :=
          [Event.origRequest
            (mergeHeaders (getAuthHeaders st) options.headers),
           Event.refreshRequest rt] } := by
  simp only [fetchWithAuth, hreq, if_pos (And.intro h401 hskip), hrt, hc]

/-- Path lemma: when the refresh endpoint settles with a non-success
status, the cookies are cleared (twice: once before the throw and once in
the catch block) and the fixed session-expired error is thrown; no retry is
issued. -/
theorem fetchWithAuth_eq_renewalDenied (env : Env)
    (options : FetchWithAuthOptions) (st : CookieStore) (resp rr : Response)
    (rt : String)
    (hreq : env.request 0 (mergeHeaders (getAuthHeaders st) options.headers) =
      Except.ok resp)
    (h401 : resp.status = 401) (hskip : options.skipRefresh = false)
    (hrt : truthy (getRefreshToken st) = some rt)
    (hc : env.refreshCall rt = Except.ok rr)
    (hko : responseOk rr = false) :
    fetchWithAuth env options st =
      { outcome := Except.error "Session expired. Please login again.",
        store := clearAuthCookies (clearAuthCookies st),
        events :=
          [Event.origRequest
            (mergeHeaders (getAuthHeaders st) options.headers),
           Event.refreshRequest rt] } := by
  simp only [fetchWithAuth, hreq, if_pos (And.intro h401 hskip), hrt, hc, hko]
  simp

/-- Path lemma: when the refresh endpoint settles successfully and the
retried request settles, `fetchWithAuth` persists the renewal directives,
rebuilds the headers from the updated store, retries exactly once and
returns the retry's response. -/
theorem fetchWithAuth_eq_renewalOk (env : Env)
    (options : FetchWithAuthOptions) (st : CookieStore)
    (resp rr retryResp : Response) (rt : String)
    (hreq : env.request 0 (mergeHeaders (getAuthHeaders st) options.headers) =
      Except.ok resp)
    (h401 : resp.status = 401) (hskip : options.skipRefresh = false)
    (hrt : truthy (getRefreshToken st) = some rt)
    (hc : env.refreshCall rt = Except.ok rr)
    (hok : responseOk rr = true)
    (hretry : env.request 1
        (mergeHeaders (getAuthHeaders (persistRenewal env.prod rr st))
          options.headers) =
      Except.ok retryResp) :
    fetchWithAuth env options st =
      { outcome := Except.ok retryResp,
        store := persistRenewal env.prod rr st,
        events :=
          [Event.origRequest
            (mergeHeaders (getAuthHeaders st) options.headers),
           Event.refreshRequest rt,
           Event.origRequest
            (mergeHeaders (getAuthHeaders (persistRenewal env.prod rr st))
              options.headers)] } := by
  simp only [fetchWithAuth, hreq, if_pos (And.intro h401 hskip), hrt, hc, hok,
    hretry]
  simp

/-- C1: a `fetchWithAuth` call whose initial request settles with a 401,
with renewal enabled, a refresh credential present, and a successful
renewal round trip, issues exactly one renewal call and then exactly one
retry of the original request; the retry's headers are rebuilt from the
store into which the renewal response was persisted (not the stale ones),
and the retry's settled response is returned as the final outcome with no
second renewal — the event list contains a single `refreshRequest`
whatever the retry's status is. -/
theorem fetchWithAuth_refresh_then_retry (env : Env)
    (options : FetchWithAuthOptions) (st : CookieStore)
    (resp rr retryResp : Response) (rt : String)
    (hreq : env.request 0 (mergeHeaders (getAuthHeaders st) options.headers) =
      Except.ok resp)
    (h401 : resp.status = 401) (hskip : options.skipRefresh = false)
    (hrt : truthy (getRefreshToken st) = some rt)
    (hc : env.refreshCall rt = Except.ok rr)
    (hok : responseOk rr = true)
    (hretry : env.request 1
        (mergeHeaders (getAuthHeaders (persistRenewal env.prod rr st))
          options.headers) =
      Except.ok retryResp) :
    fetchWithAuth env options st =
      { outcome := Except.ok retryResp,
        store := persistRenewal env.prod rr st,
        events :=
          [Event.origRequest
            (mergeHeaders (getAuthHeaders st) options.headers),
           Event.refreshRequest rt,
           Event.origRequest
            (mergeHeaders (getAuthHeaders (persistRenewal env.prod rr st))
              options.headers)] } :=
  fetchWithAuth_eq_renewalOk env options st resp rr retryResp rt hreq h401
    hskip hrt hc hok hretry

/-- Witness for C1 on the happy-path scenario of the spec: store
`AAA`/`BBB`, first request 401, renewal rotates to `CCC`/`DDD`, retry
answers 200.  The retry event carries the cookie header rebuilt from the
renewed store. -/
theorem fetchWithAuth_refresh_then_retry_witness :
    envHappy.request 0
        (mergeHeaders (getAuthHeaders stBoth) optsDefault.headers) =
      Except.ok respUnauthorized ∧
    respUnauthorized.status = 401 ∧
    optsDefault.skipRefresh = false ∧
    truthy (getRefreshToken stBoth) = some "BBB" ∧
    envHappy.refreshCall "BBB" = Except.ok respRenewed ∧
    responseOk respRenewed = true ∧
    envHappy.request 1
        (mergeHeaders
          (getAuthHeaders (persistRenewal envHappy.prod respRenewed stBoth))
          optsDefault.headers) =
      Except.ok respStats ∧
    fetchWithAuth envHappy optsDefault stBoth =
      { outcome := Except.ok respStats,
        store := persistRenewal envHappy.prod respRenewed stBoth,
        events :=
          [Event.origRequest
            (mergeHeaders (getAuthHeaders stBoth) optsDefault.headers),
           Event.refreshRequest "BBB",
           Event.origRequest
            (mergeHeaders
              (getAuthHeaders
                (persistRenewal envHappy.prod respRenewed stBoth))
              optsDefault.headers)] } :=
  ⟨by decide, by decide, by decide, by decide, by decide, by decide,
   by decide,
   fetchWithAuth_refresh_then_retry envHappy optsDefault stBoth
     respUnauthorized respRenewed respStats "BBB" (by decide) (by decide)
     (by decide) (by decide) (by decide) (by decide) (by decide)⟩

/-- C6: a `fetchWithAuth` call whose initial request settles with any
status other than 401 (including other 4xx and 5xx) returns that response
verbatim, issues no renewal call and no retry, and leaves the store
unchanged. -/
theorem fetchWithAuth_non401_passthrough (env : Env)
    (options : FetchWithAuthOptions) (st : CookieStore) (resp : Response)
    (hreq : env.request 0 (mergeHeaders (getAuthHeaders st) options.headers) =
      Except.ok resp)
    (hne : resp.status ≠ 401) :
    fetchWithAuth env options st =
      { outcome := Except.ok resp, store := st,
        events :=
          [Event.origRequest
            (mergeHeaders (getAuthHeaders st) options.headers)] } :=
  fetchWithAuth_eq_passthrough env options st resp hreq fun h => hne h.1

/-- Witness for C6: a 500 response is passed through untouched. -/
theorem fetchWithAuth_non401_passthrough_witness :
    env500.request 0
        (mergeHeaders (getAuthHeaders stBoth) optsDefault.headers) =
      Except.ok respServerError ∧
    respServerError.status ≠ 401 ∧
    fetchWithAuth env500 optsDefault stBoth =
      { outcome := Except.ok respServerError, store := stBoth,
        events :=
          [Event.origRequest
            (mergeHeaders (getAuthHeaders stBoth) optsDefault.headers)] } :=
  ⟨by decide, by decide,
   fetchWithAuth_non401_passthrough env500 optsDefault stBoth respServerError
     (by decide) (by decide)⟩

/-- C7: a `fetchWithAuth` call with `skipRefresh` set whose initial request
settles with a 401 returns that 401 response unmodified: no renewal call,
no retry, no error, store unchanged. -/
theorem fetchWithAuth_skipRefresh_passthrough (env : Env)
    (options : FetchWithAuthOptions) (st : CookieStore) (resp : Response)
    (hreq : env.request 0 (mergeHeaders (getAuthHeaders st) options.headers) =
      Except.ok resp)
    (_h401 : resp.status = 401)
    (hskip : options.skipRefresh = true) :
    fetchWithAuth env options st =
      { outcome := Except.ok resp, store := st,
        events :=
          [Event.origRequest
            (mergeHeaders (getAuthHeaders st) options.headers)] } :=
  fetchWithAuth_eq_passthrough env options st resp hreq fun h => by
    rw [hskip] at h
    exact Bool.noConfusion h.2

/-- Witness for C7: with `skipRefresh: true` the 401 is returned as-is. -/
theorem fetchWithAuth_skipRefresh_passthrough_witness :
    env401.request 0 (mergeHeaders (getAuthHeaders stBoth) optsSkip.headers) =
      Except.ok respUnauthorized ∧
    respUnauthorized.status = 401 ∧
    optsSkip.skipRefresh = true ∧
    fetchWithAuth env401 optsSkip stBoth =
      { outcome := Except.ok respUnauthorized, store := stBoth,
        events :=
          [Event.origRequest
            (mergeHeaders (getAuthHeaders stBoth) optsSkip.headers)] } :=
  ⟨by decide, by decide, by decide,
   fetchWithAuth_skipRefresh_passthrough env401 optsSkip stBoth
     respUnauthorized (by decide) (by decide) (by decide)⟩

/-- C4: a `fetchWithAuth` call that observes a 401 with renewal enabled but
finds no (truthy) refresh token fails with the
`Unauthorized: No refresh token available` error and leaves the store
exactly as it was — in particular the access cookie is not cleared — and
issues no further network call. -/
theorem fetchWithAuth_noRefreshToken (env : Env)
    (options : FetchWithAuthOptions) (st : CookieStore) (resp : Response)
    (hreq : env.request 0 (mergeHeaders (getAuthHeaders st) options.headers) =
      Except.ok resp)
    (h401 : resp.status = 401) (hskip : options.skipRefresh = false)
    (hno : truthy (getRefreshToken st) = none) :
    fetchWithAuth env options st =
      { outcome := Except.error "Unauthorized: No refresh token available",
        store := st,
        events :=
          [Event.origRequest
            (mergeHeaders (getAuthHeaders st) options.headers)] } :=
  fetchWithAuth_eq_noRefreshToken env options st resp hreq h401 hskip hno

/-- Witness for C4: store holding only `AAA`, request answers 401 — the
error is thrown and `AAA` is still stored afterwards. -/
theorem fetchWithAuth_noRefreshToken_witness :
    env401.request 0
        (mergeHeaders (getAuthHeaders stAccessOnly) optsDefault.headers) =
      Except.ok respUnauthorized ∧
    respUnauthorized.status = 401 ∧
    optsDefault.skipRefresh = false ∧
    truthy (getRefreshToken stAccessOnly) = none ∧
    fetchWithAuth env401 optsDefault stAccessOnly =
      { outcome := Except.error "Unauthorized: No refresh token available",
        store := stAccessOnly,
        events :=
          [Event.origRequest
            (mergeHeaders (getAuthHeaders stAccessOnly)
              optsDefault.headers)] } :=
  ⟨by decide, by decide, by decide, by decide,
   fetchWithAuth_noRefreshToken env401 optsDefault stAccessOnly
     respUnauthorized (by decide) (by decide) (by decide) (by decide)⟩

/-- C10: when the renewal round trip settles successfully but carries zero
`Set-Cookie` directives, nothing is persisted (the store keeps the previous
pair), no error is raised, and the original request is still retried
exactly once with the headers rebuilt from the unchanged store — the very
same (stale) cookie header as the initial attempt — its settled response
being the final outcome. -/
theorem fetchWithAuth_emptyRenewal_retries_stale (env : Env)
    (options : FetchWithAuthOptions) (st : CookieStore)
    (resp rr retryResp : Response) (rt : String)
    (hreq : env.request 0 (mergeHeaders (getAuthHeaders st) options.headers) =
      Except.ok resp)
    (h401 : resp.status = 401) (hskip : options.skipRefresh = false)
    (hrt : truthy (getRefreshToken st) = some rt)
    (hc : env.refreshCall rt = Except.ok rr)
    (hok : responseOk rr = true)
    (hsc : rr.setCookies = [])
    (hretry : env.request 1
        (mergeHeaders (getAuthHeaders st) options.headers) =
      Except.ok retryResp) :
    fetchWithAuth env options st =
      { outcome := Except.ok retryResp,
        store := st,
        events :=
          [Event.origRequest
            (mergeHeaders (getAuthHeaders st) options.headers),
           Event.refreshRequest rt,
           Event.origRequest
            (mergeHeaders (getAuthHeaders st) options.headers)] } := by
  have hp : persistRenewal env.prod rr st = st := by
    simp [persistRenewal, hsc]
  have h := fetchWithAuth_eq_renewalOk env options st resp rr retryResp rt
    hreq h401 hskip hrt hc hok (by rw [hp]; exact hretry)
  rw [hp] at h
  exact h

/-- Witness for C10: renewal settles 200 with no directives; the retry goes
out with the original `AAA`/`BBB` cookie header and its 200 response is
returned; the store still holds `AAA`/`BBB`. -/
theorem fetchWithAuth_emptyRenewal_retries_stale_witness :
    envEmptyRenewal.request 0
        (mergeHeaders (getAuthHeaders stBoth) optsDefault.headers) =
      Except.ok respUnauthorized ∧
    respUnauthorized.status = 401 ∧
    optsDefault.skipRefresh = false ∧
    truthy (getRefreshToken stBoth) = some "BBB" ∧
    envEmptyRenewal.refreshCall "BBB" = Except.ok respRenewedEmpty ∧
    responseOk respRenewedEmpty = true ∧
    respRenewedEmpty.setCookies = [] ∧
    envEmptyRenewal.request 1
        (mergeHeaders (getAuthHeaders stBoth) optsDefault.headers) =
      Except.ok respStats ∧
    fetchWithAuth envEmptyRenewal optsDefault stBoth =
      { outcome := Except.ok respStats,
        store := stBoth,
        events :=
          [Event.origRequest
            (mergeHeaders (getAuthHeaders stBoth) optsDefault.headers),
           Event.refreshRequest "BBB",
           Event.origRequest
            (mergeHeaders (getAuthHeaders stBoth) optsDefault.headers)] } :=
  ⟨by decide, by decide, by decide, by decide, by decide, by decide,
   by decide, by decide,
   fetchWithAuth_emptyRenewal_retries_stale envEmptyRenewal optsDefault
     stBoth respUnauthorized respRenewedEmpty respStats "BBB" (by decide)
     (by decide) (by decide) (by decide) (by decide) (by decide) (by decide)
     (by decide)⟩

/-- Counterexample to C2 as stated: when the renewal fetch itself faults
(here with message `fetch failed: network down`), the catch block rethrows
that fault, so the surfaced error is not the
`Session expired. Please login again.` error the claim requires for the
fault case — even though the claim's premise (401, renewal enabled,
refresh token `BBB` present, renewal round trip faulting) holds. -/
theorem fetchWithAuth_renewalFault_message_cex :
    envRenewFault.request 0
        (mergeHeaders (getAuthHeaders stBoth) optsDefault.headers) =
      Except.ok respUnauthorized ∧
    respUnauthorized.status = 401 ∧
    optsDefault.skipRefresh = false ∧
    truthy (getRefreshToken stBoth) = some "BBB" ∧
    envRenewFault.refreshCall "BBB" =
      Except.error "fetch failed: network down" ∧
    (fetchWithAuth envRenewFault optsDefault stBoth).outcome ≠
      Except.error "Session expired. Please login again." := by
  decide

/-- C2 (amended): whenever the renewal round trip fails — it settles with a
non-success status or it faults — both cookies are absent afterwards and no
retry of the original request is issued; the surfaced error is the
`Session expired. Please login again.` error when the renewal settled with
a non-success status, and the renewal fault's own error when the renewal
fetch rejected. -/
theorem fetchWithAuth_renewalFailure_clears (env : Env)
    (options : FetchWithAuthOptions) (st : CookieStore) (resp : Response)
    (rt : String)
    (hreq : env.request 0 (mergeHeaders (getAuthHeaders st) options.headers) =
      Except.ok resp)
    (h401 : resp.status = 401) (hskip : options.skipRefresh = false)
    (hrt : truthy (getRefreshToken st) = some rt)
    (hfail : renewalFailed (env.refreshCall rt) = true) :
    (fetchWithAuth env options st).store.access = none ∧
    (fetchWithAuth env options st).store.refresh = none ∧
    (fetchWithAuth env options st).events =
      [Event.origRequest (mergeHeaders (getAuthHeaders st) options.headers),
       Event.refreshRequest rt] ∧
    (fetchWithAuth env options st).outcome =
      Except.error (renewalErrorMessage (env.refreshCall rt)) := by
  cases hc : env.refreshCall rt with
  | error e =>
    rw [fetchWithAuth_eq_renewalFault env options st resp rt e hreq h401
      hskip hrt hc]
    exact ⟨rfl, rfl, rfl, rfl⟩
  | ok rr =>
    have hko : responseOk rr = false := by
      rw [hc] at hfail
      simpa [renewalFailed] using hfail
    rw [fetchWithAuth_eq_renewalDenied env options st resp rr rt hreq h401
      hskip hrt hc hko]
    exact ⟨rfl, rfl, rfl, rfl⟩

/-- Witness for the amended C2 on the spec's scenario: renewal settles with
a 401, the store ends empty, no retry is issued, and the error is the
session-expired one. -/
theorem fetchWithAuth_renewalFailure_clears_witness :
    envRenewDenied.request 0
        (mergeHeaders (getAuthHeaders stBoth) optsDefault.headers) =
      Except.ok respUnauthorized ∧
    respUnauthorized.status = 401 ∧
    optsDefault.skipRefresh = false ∧
    truthy (getRefreshToken stBoth) = some "BBB" ∧
    renewalFailed (envRenewDenied.refreshCall "BBB") = true ∧
    ((fetchWithAuth envRenewDenied optsDefault stBoth).store.access = none ∧
     (fetchWithAuth envRenewDenied optsDefault stBoth).store.refresh = none ∧
     (fetchWithAuth envRenewDenied optsDefault stBoth).events =
       [Event.origRequest
         (mergeHeaders (getAuthHeaders stBoth) optsDefault.headers),
        Event.refreshRequest "BBB"] ∧
     (fetchWithAuth envRenewDenied optsDefault stBoth).outcome =
       Except.error
         (renewalErrorMessage (envRenewDenied.refreshCall "BBB"))) :=
  ⟨by decide, by decide, by decide, by decide, by decide,
   fetchWithAuth_renewalFailure_clears envRenewDenied optsDefault stBoth
     respUnauthorized "BBB" (by decide) (by decide) (by decide) (by decide)
     (by decide)⟩

/-- Counterexample to C3 as stated: on the `NoRefreshCredential` failure
the throw happens before the try block, so nothing is cleared — with only
the access cookie `AAA` stored, the call fails with the no-refresh-token
error while `AAA` is still stored afterwards, contradicting the claim that
every credential-related failure clears both credentials before
surfacing. -/
theorem fetchWithAuth_noRefresh_not_cleared_cex :
    (fetchWithAuth env401 optsDefault stAccessOnly).outcome =
      Except.error "Unauthorized: No refresh token available" ∧
    (fetchWithAuth env401 optsDefault stAccessOnly).store.access ≠ none := by
  decide

/-- C3 (amended): of the two credential-related failures only
`SessionExpired` clears the stored credentials before surfacing: when a 401
is observed with renewal enabled, the absence of a (truthy) refresh token
surfaces the no-refresh-token error with the store left exactly unchanged,
while a failed renewal round trip (rejected or faulted) leaves both
credentials absent. -/
theorem fetchWithAuth_credentialFailure_storePolicy (env : Env)
    (options : FetchWithAuthOptions) (st : CookieStore) (resp : Response)
    (hreq : env.request 0 (mergeHeaders (getAuthHeaders st) options.headers) =
      Except.ok resp)
    (h401 : resp.status = 401) (hskip : options.skipRefresh = false) :
    (truthy (getRefreshToken st) = none →
      (fetchWithAuth env options st).outcome =
        Except.error "Unauthorized: No refresh token available" ∧
      (fetchWithAuth env options st).store = st) ∧
    (∀ rt, truthy (getRefreshToken st) = some rt →
      renewalFailed (env.refreshCall rt) = true →
      (fetchWithAuth env options st).store.access = none ∧
      (fetchWithAuth env options st).store.refresh = none) := by
  constructor
  · intro hno
    rw [fetchWithAuth_eq_noRefreshToken env options st resp hreq h401 hskip
      hno]
    exact ⟨rfl, rfl⟩
  · intro rt hrt hfail
    cases hc : env.refreshCall rt with
    | error e =>
      rw [fetchWithAuth_eq_renewalFault env options st resp rt e hreq h401
        hskip hrt hc]
      exact ⟨rfl, rfl⟩
    | ok rr =>
      have hko : responseOk rr = false := by
        rw [hc] at hfail
        simpa [renewalFailed] using hfail
      rw [fetchWithAuth_eq_renewalDenied env options st resp rr rt hreq h401
        hskip hrt hc hko]
      exact ⟨rfl, rfl⟩

/-- Witness for the amended C3, on the no-refresh-token branch: access
`AAA` alone in the store, request answers 401. -/
theorem fetchWithAuth_credentialFailure_storePolicy_witness :
    env401.request 0
        (mergeHeaders (getAuthHeaders stAccessOnly) optsDefault.headers) =
      Except.ok respUnauthorized ∧
    respUnauthorized.status = 401 ∧
    optsDefault.skipRefresh = false ∧
    ((truthy (getRefreshToken stAccessOnly) = none →
      (fetchWithAuth env401 optsDefault stAccessOnly).outcome =
        Except.error "Unauthorized: No refresh token available" ∧
      (fetchWithAuth env401 optsDefault stAccessOnly).store = stAccessOnly) ∧
     (∀ rt, truthy (getRefreshToken stAccessOnly) = some rt →
      renewalFailed (env401.refreshCall rt) = true →
      (fetchWithAuth env401 optsDefault stAccessOnly).store.access = none ∧
      (fetchWithAuth env401 optsDefault stAccessOnly).store.refresh =
        none)) :=
  ⟨by decide, by decide, by decide,
   fetchWithAuth_credentialFailure_storePolicy env401 optsDefault
     stAccessOnly respUnauthorized (by decide) (by decide) (by decide)⟩

/-- C5: `extractAndSetCookies` scans every element of the header array, not
just the first.  Given two directives — an access one (matching only the
access pattern) followed by a refresh one (matching only the refresh
pattern) — both cookies end up stored with the respective captured values,
the access cookie with max-age 900 seconds and the refresh cookie with
max-age 604800 seconds; given only one of the directives, only that
cookie is updated and the other keeps its previous stored value. -/
theorem extractAndSetCookies_scans_all (prod : Bool) (st : CookieStore)
    (h1 h2 a r : String) :
    (matchCookieValue "access_token=" h1 = some a →
     matchCookieValue "refresh_token=" h1 = none →
     matchCookieValue "refresh_token=" h2 = some r →
     matchCookieValue "access_token=" h2 = none →
     (extractAndSetCookies prod [h1, h2] st).access =
       some { value := a, httpOnly := true, secure := prod,
              sameSite := "lax", path := "/", maxAge := 900 } ∧
     (extractAndSetCookies prod [h1, h2] st).refresh =
       some { value := r, httpOnly := true, secure := prod,
              sameSite := "lax", path := "/", maxAge := 604800 }) ∧
    (matchCookieValue "access_token=" h1 = some a →
     matchCookieValue "refresh_token=" h1 = none →
     (extractAndSetCookies prod [h1] st).access =
       some { value := a, httpOnly := true, secure := prod,
              sameSite := "lax", path := "/", maxAge := 900 } ∧
     (extractAndSetCookies prod [h1] st).refresh = st.refresh) ∧
    (matchCookieValue "refresh_token=" h2 = some r →
     matchCookieValue "access_token=" h2 = none →
     (extractAndSetCookies prod [h2] st).refresh =
       some { value := r, httpOnly := true, secure := prod,
              sameSite := "lax", path := "/", maxAge := 604800 } ∧
     (extractAndSetCookies prod [h2] st).access = st.access) := by
  refine ⟨fun ha1 hr1 hr2 ha2 => ?_, fun ha1 hr1 => ?_, fun hr2 ha2 => ?_⟩
  · constructor <;>
      simp [extractAndSetCookies, ha1, hr1, hr2, ha2, accessCookieData,
        refreshCookieData]
  · constructor <;>
      simp [extractAndSetCookies, ha1, hr1, accessCookieData,
        refreshCookieData]
  · constructor <;>
      simp [extractAndSetCookies, hr2, ha2, accessCookieData,
        refreshCookieData]

/-- Witness for C5 on the spec's login scenario: directives
`access_token=AAA; Path=/` then `refresh_token=BBB; Path=/` ingested into
an empty store yield `AAA` (max-age 900) and `BBB` (max-age 604800). -/
theorem extractAndSetCookies_scans_all_witness :
    matchCookieValue "access_token=" "access_token=AAA; Path=/" =
      some "AAA" ∧
    matchCookieValue "refresh_token=" "access_token=AAA; Path=/" = none ∧
    matchCookieValue "refresh_token=" "refresh_token=BBB; Path=/" =
      some "BBB" ∧
    matchCookieValue "access_token=" "refresh_token=BBB; Path=/" = none ∧
    ((extractAndSetCookies false
        ["access_token=AAA; Path=/", "refresh_token=BBB; Path=/"]
        stEmpty).access =
      some { value := "AAA", httpOnly := true, secure := false,
             sameSite := "lax", path := "/", maxAge := 900 } ∧
     (extractAndSetCookies false
        ["access_token=AAA; Path=/", "refresh_token=BBB; Path=/"]
        stEmpty).refresh =
      some { value := "BBB", httpOnly := true, secure := false,
             sameSite := "lax", path := "/", maxAge := 604800 }) :=
  ⟨by decide, by decide, by decide, by decide,
   (extractAndSetCookies_scans_all false stEmpty "access_token=AAA; Path=/"
       "refresh_token=BBB; Path=/" "AAA" "BBB").1
     (by decide) (by decide) (by decide) (by decide)⟩

/-- C8: for every store state, `getAuthHeaders` carries a
`Content-Type: application/json` entry, and its `Cookie` entry is the
single combined list of whichever of the two (truthily present) tokens
exist, access first when both are present, and is absent — with no error —
when both are absent. -/
theorem getAuthHeaders_shape (st : CookieStore) :
    (getAuthHeaders st).contentType = some "application/json" ∧
    (getAuthHeaders st).cookie =
      (match truthy (getAuthToken st), truthy (getRefreshToken st) with
       | some a, some r =>
         some ("access_token=" ++ a ++ "; " ++ ("refresh_token=" ++ r))
       | some a, none => some ("access_token=" ++ a)
       | none, some r => some ("refresh_token=" ++ r)
       | none, none => none) := by
  constructor
  · rfl
  · cases ha : truthy (getAuthToken st) <;>
      cases hr : truthy (getRefreshToken st) <;>
      simp [getAuthHeaders, ha, hr, joinSemicolon]

/-- C9: `logout` always ends with both cookies absent.  When a (truthy)
refresh token is stored, the remote logout call is attempted with exactly
that token; a fault of that call is logged via the catch block and never
propagated (the function is total), and the clearing still happens; when no
refresh token is stored, no remote call is made at all. -/
theorem logout_always_clears (env : LogoutEnv) (st : CookieStore) :
    (logout env st).1.access = none ∧
    (logout env st).1.refresh = none ∧
    (match truthy (getRefreshToken st) with
     | some rt =>
       ((logout env st).2.head? = some (LogoutEvent.logoutRequest rt)) ∧
       (∀ r, env.logoutCall rt = Except.ok r →
         (logout env st).2 = [LogoutEvent.logoutRequest rt]) ∧
       (∀ e, env.logoutCall rt = Except.error e →
         (logout env st).2 =
           [LogoutEvent.logoutRequest rt,
            LogoutEvent.errorLogged ("Logout request failed: " ++ e)])
     | none => (logout env st).2 = []) := by
  refine ⟨?_, ?_, ?_⟩
  · cases hrt : truthy (getRefreshToken st) <;>
      simp [logout, hrt, clearAuthCookies]
  · cases hrt : truthy (getRefreshToken st) <;>
      simp [logout, hrt, clearAuthCookies]
  · cases hrt : truthy (getRefreshToken st) with
    | none => simp [logout, hrt]
    | some rt =>
      cases hc : env.logoutCall rt with
      | ok r => simp [logout, hrt, hc]
      | error e => simp [logout, hrt, hc]
